import Mathlib

/-!
Shallow embedding of `src/agent_core.py` (Azure AI Foundry agent adapter):
the `AgentConfig` value object, the `FoundryAgent` tool registry
(`register_azure_function_tool`, `register_logic_app_tool`,
`register_custom_tool`, `list_tools`) and the session controller operations
(`create_agent`, `run_agent`, `delete_agent`).

External collaborators (the Azure Functions / Logic Apps HTTP clients and the
remote agent service reached through `AIProjectClient`) are modelled as
uninterpreted function records (`Env`, `Service`); the code under
`src/` is embedded faithfully, including Python truthiness of the
`description or ...` / `name or ...` / `if not thread_id` idioms and
ordinary Python `dict` assignment semantics (insertion order preserved,
re-assignment keeps the original position).
-/

set_option autoImplicit false

namespace AgentCore

/-- A Python value, as far as this module manipulates values: the tool
wrappers build string-keyed dicts, string values and pass payloads through
opaquely. -/
inductive PyVal where
  | pynone
  | pybool (b : Bool)
  | pyint (n : Int)
  | str (s : String)
  | list (xs : List PyVal)
  | dict (kvs : List (String × PyVal))

/-- A registered tool callable: takes the keyword-argument payload, returns a
value or raises an exception (represented by its `str(e)` message). -/
abbrev ToolFn : Type := PyVal → Except String PyVal

/-- `FunctionConfig` from `src.abstractions.azure_functions` (external
collaborator): the fields `agent_core.py` reads. -/
structure FunctionConfig where
  function_url : String
  function_key : String

/-- `LogicAppConfig` from `src.abstractions.logic_apps` (external
collaborator): the field `agent_core.py` reads. -/
structure LogicAppConfig where
  workflow_url : String

/-- `FunctionTool` descriptor from `azure.ai.projects.models`: the three
keyword arguments `agent_core.py` passes when constructing one. -/
structure FunctionTool where
  name : String
  description : String
  parameters : PyVal

/-- `AgentConfig` (a pydantic `BaseModel`). -/
structure AgentConfig where
  project_endpoint : String
  use_managed_identity : Bool
  model_name : String
  instructions : String

/-- Pydantic construction of `AgentConfig`: `project_endpoint` is declared
with `Field(...)` so it is required (omitting it is a validation error); the
other three fields carry defaults.  Pydantic performs no further validation
on the string's contents. -/
def AgentConfig.validate (project_endpoint : Option String)
    (use_managed_identity : Option Bool) (model_name : Option String)
    (instructions : Option String) : Except String AgentConfig :=
  match project_endpoint with
  | Option.none => Except.error "validation error: project_endpoint field required"
  | Option.some ep =>
      Except.ok
        { project_endpoint := ep
          use_managed_identity := use_managed_identity.getD true
          model_name := model_name.getD "gpt-4"
          instructions :=
            instructions.getD "You are a helpful AI assistant with access to Azure tools." }

/-- Python's `x or d` for an optional string: `None` and `""` are falsy. -/
def pyOrStr (s : Option String) (d : String) : String :=
  match s with
  | Option.none => d
  | Option.some v => if v = "" then d else v

/-- The external clients `agent_core.py` delegates to:
`AzureFunctionsClient(config).invoke_function(kwargs)` and
`LogicAppsClient(config).trigger_workflow(kwargs)`.  Both return a structured
result or raise. -/
structure Env where
  invoke_function : FunctionConfig → PyVal → Except String PyVal
  trigger_workflow : LogicAppConfig → PyVal → Except String PyVal

/-- The inner `tool_function` closure built by `register_azure_function_tool`:
delegates to the client, returns its result unchanged, and converts any
exception to `{"error": str(e), "status": "failed"}` rather than raising. -/
def azure_function_tool_function (env : Env) (config : FunctionConfig) : ToolFn :=
  fun kwargs =>
    match env.invoke_function config kwargs with
    | Except.ok result => Except.ok result
    | Except.error e =>
        Except.ok (PyVal.dict [("error", PyVal.str e), ("status", PyVal.str "failed")])

/-- The inner `tool_function` closure built by `register_logic_app_tool`. -/
def logic_app_tool_function (env : Env) (config : LogicAppConfig) : ToolFn :=
  fun kwargs =>
    match env.trigger_workflow config kwargs with
    | Except.ok result => Except.ok result
    | Except.error e =>
        Except.ok (PyVal.dict [("error", PyVal.str e), ("status", PyVal.str "failed")])

/-- Python dict assignment `d[k] = v` on a string-keyed dict (keys are unique
by construction): overwrite in place when the key exists, keeping its
original position, otherwise append at the end. -/
def dictSet {α : Type} : List (String × α) → String → α → List (String × α)
  | [], k, v => [(k, v)]
  | p :: d, k, v => if p.1 == k then (k, v) :: d else p :: dictSet d k v

/-- Python dict lookup `d[k]` (as an `Option`). -/
def dictLookup {α : Type} (d : List (String × α)) (k : String) : Option α :=
  (d.find? (fun p => p.1 == k)).map Prod.snd

/-- The mutable state of a `FoundryAgent` instance: its configuration, the
`_tools` name-to-callable dict and the `_function_tools` descriptor list. -/
structure FoundryAgent where
  config : AgentConfig
  tools : List (String × ToolFn)
  function_tools : List FunctionTool

/-- `FoundryAgent.__init__`: both registries start empty. -/
def FoundryAgent.init (config : AgentConfig) : FoundryAgent :=
  { config := config, tools := [], function_tools := [] }

/-- Fixed parameter schema attached to every Azure Function tool descriptor. -/
def azureFunctionParameters : PyVal :=
  PyVal.dict
    [("type", PyVal.str "object"),
     ("properties",
       PyVal.dict
         [("payload",
            PyVal.dict
              [("type", PyVal.str "object"),
               ("description", PyVal.str "JSON payload to send to the Azure Function")])]),
     ("required", PyVal.list [PyVal.str "payload"])]

/-- Fixed parameter schema attached to every Logic App tool descriptor. -/
def logicAppParameters : PyVal :=
  PyVal.dict
    [("type", PyVal.str "object"),
     ("properties",
       PyVal.dict
         [("payload",
            PyVal.dict
              [("type", PyVal.str "object"),
               ("description", PyVal.str "JSON payload to send to the Logic App workflow")])]),
     ("required", PyVal.list [PyVal.str "payload"])]

/-- `FoundryAgent.register_azure_function_tool`: store the wrapper under
`name` in `_tools` and append a descriptor (default description synthesized
with `description or f"Azure Function tool: {name} - ..."`). -/
def register_azure_function_tool (env : Env) (a : FoundryAgent) (name : String)
    (config : FunctionConfig) (description : Option String) : FoundryAgent :=
  { a with
    tools := dictSet a.tools name (azure_function_tool_function env config)
    function_tools :=
      a.function_tools ++
        [{ name := name
           description :=
             pyOrStr description
               ("Azure Function tool: " ++ name ++ " - Invokes Azure Function at "
                 ++ config.function_url)
           parameters := azureFunctionParameters }] }

/-- `FoundryAgent.register_logic_app_tool`: same shape, Logic App client and
default description. -/
def register_logic_app_tool (env : Env) (a : FoundryAgent) (name : String)
    (config : LogicAppConfig) (description : Option String) : FoundryAgent :=
  { a with
    tools := dictSet a.tools name (logic_app_tool_function env config)
    function_tools :=
      a.function_tools ++
        [{ name := name
           description :=
             pyOrStr description
               ("Logic App workflow tool: " ++ name ++ " - Triggers workflow at "
                 ++ config.workflow_url)
           parameters := logicAppParameters }] }

/-- `FoundryAgent.register_custom_tool`: the callable is stored verbatim (no
error-converting wrapper) and the caller-supplied description and parameter
schema go into the descriptor unchanged. -/
def register_custom_tool (a : FoundryAgent) (name : String) (function : ToolFn)
    (description : String) (parameters : PyVal) : FoundryAgent :=
  { a with
    tools := dictSet a.tools name function
    function_tools :=
      a.function_tools ++
        [{ name := name, description := description, parameters := parameters }] }

/-- `FoundryAgent.list_tools`: `list(self._tools.keys())`. -/
def list_tools (a : FoundryAgent) : List String :=
  a.tools.map Prod.fst

/-- An element of a message's `content` list: either it carries a `text`
attribute with a `.value` string (`hasattr(content, "text")` true) or it does
not. -/
inductive ContentItem where
  | text (value : String)
  | other
deriving DecidableEq

/-- A message returned by `list_messages`: the fields `run_agent` reads. -/
structure Message where
  role : String
  content : List ContentItem
deriving DecidableEq

/-- An exception the controller can raise: the `IndexError` from
`message.content[0]` on an empty content list, or an exception propagated
from the remote service. -/
inductive PyErr where
  | indexError
  | exc (msg : String)
deriving DecidableEq

/-- One remote call issued by the session controller against
`self._client.agents`. -/
inductive RemoteCall where
  | createThread
  | createMessage (thread_id : String) (role : String) (content : String)
  | createAndProcessRun (thread_id : String) (agent_id : String)
  | listMessages (thread_id : String)
  | deleteAgent (agent_id : String)
deriving DecidableEq

/-- The keyword arguments of one `create_agent` remote call. -/
structure CreateAgentCall where
  model : String
  name : String
  instructions : String
  tools : List FunctionTool
  tool_resources : List (String × PyVal)

/-- The remote agent service behind `self._client.agents` (external
collaborator): each operation returns a value or raises.  `create_thread`
yields `thread.id`, `create_and_process_run` yields `run.status`,
`create_agent_resp` yields `agent.id` for the given call arguments. -/
structure Service where
  create_thread : Except PyErr String
  create_message : String → String → String → Except PyErr Unit
  create_and_process_run : String → String → Except PyErr String
  list_messages : String → Except PyErr (List Message)
  create_agent_resp : CreateAgentCall → Except PyErr String
  delete_agent : String → Except PyErr Unit

/-- The message loop at the end of `run_agent`: scan the listed messages in
order; on a message with role `"assistant"`, read `message.content[0]`
(raising `IndexError` when `content` is empty) and return
`content.text.value` when that first element has a `text` attribute,
otherwise continue; return `"No response generated"` when the loop ends. -/
def run_agent_scan : List Message → Except PyErr String
  | [] => Except.ok "No response generated"
  | m :: rest =>
      if m.role = "assistant" then
        match m.content with
        | [] => Except.error PyErr.indexError
        | c :: _ =>
            match c with
            | ContentItem.text v => Except.ok v
            | ContentItem.other => run_agent_scan rest
      else
        run_agent_scan rest

/-- `FoundryAgent.run_agent`, instrumented with the list of remote calls it
issues.  `if not thread_id:` uses Python truthiness, so both `None` and `""`
cause a new thread to be created; the resolved thread id is then used for
posting the `"user"` message, triggering the run and listing messages.  Any
exception from the service propagates (the trace records the calls issued up
to that point). -/
def run_agent (svc : Service) (agent_id : String) (user_message : String)
    (thread_id : Option String) : List RemoteCall × Except PyErr String :=
  let threadStep : List RemoteCall × Except PyErr String :=
    match thread_id with
    | Option.none => ([RemoteCall.createThread], svc.create_thread)
    | Option.some t =>
        if t = "" then ([RemoteCall.createThread], svc.create_thread)
        else ([], Except.ok t)
  match threadStep with
  | (pre, Except.error e) => (pre, Except.error e)
  | (pre, Except.ok tid) =>
      match svc.create_message tid "user" user_message with
      | Except.error e =>
          (pre ++ [RemoteCall.createMessage tid "user" user_message], Except.error e)
      | Except.ok _ =>
          match svc.create_and_process_run tid agent_id with
          | Except.error e =>
              (pre ++ [RemoteCall.createMessage tid "user" user_message,
                       RemoteCall.createAndProcessRun tid agent_id],
               Except.error e)
          | Except.ok _run_status =>
              match svc.list_messages tid with
              | Except.error e =>
                  (pre ++ [RemoteCall.createMessage tid "user" user_message,
                           RemoteCall.createAndProcessRun tid agent_id,
                           RemoteCall.listMessages tid],
                   Except.error e)
              | Except.ok messages =>
                  (pre ++ [RemoteCall.createMessage tid "user" user_message,
                           RemoteCall.createAndProcessRun tid agent_id,
                           RemoteCall.listMessages tid],
                   run_agent_scan messages)

/-- `FoundryAgent.create_agent`, instrumented with the list of remote
create-agent calls it issues: one call with the configured model, the name
(`name or "Azure Tools Agent"`), the configured instructions, the full
descriptor list and `tool_resources={}`; returns `agent.id` from the
service (exceptions propagate). -/
def create_agent (svc : Service) (a : FoundryAgent) (name : Option String) :
    List CreateAgentCall × Except PyErr String :=
  let agent_name := pyOrStr name "Azure Tools Agent"
  let call : CreateAgentCall :=
    { model := a.config.model_name
      name := agent_name
      instructions := a.config.instructions
      tools := a.function_tools
      tool_resources := [] }
  ([call], svc.create_agent_resp call)

/-- `FoundryAgent.delete_agent`: one remote delete call with the given
identifier, result (or exception) passed through, no return value. -/
def delete_agent (svc : Service) (agent_id : String) :
    List RemoteCall × Except PyErr Unit :=
  ([RemoteCall.deleteAgent agent_id], svc.delete_agent agent_id)

/-! ## Spec-side definitions (for refinement statements) -/

/-- The string a content element exposes as textual content: `text.value` of
its leading element, when the leading element carries a `text` attribute. -/
def contentText : List ContentItem → Option String
  | ContentItem.text v :: _ => Option.some v
  | _ => Option.none

/-- Modelled from the spec's words for the `run_agent` response extraction:
"Scan messages in the order returned by the service; return the text of the
content of the first message encountered with role `assistant` that exposes
textual content."  Here a message exposes textual content when the leading
element of its `content` carries a `text` attribute (`content[].text.value`
is the only textual field the interface consumes). -/
def firstAssistantText_spec (ms : List Message) : Option String :=
  match ms.find? (fun m => m.role == "assistant" && (contentText m.content).isSome) with
  | Option.some m => contentText m.content
  | Option.none => Option.none

/-! ## A generic registration step (for claims quantifying over the mix of
registration kinds) -/

/-- One registration action of any of the three kinds, with everything but
the tool name. -/
inductive ToolRegistration where
  | azureFunction (config : FunctionConfig) (description : Option String)
  | logicApp (config : LogicAppConfig) (description : Option String)
  | custom (function : ToolFn) (description : String) (parameters : PyVal)

/-- Perform one registration action under a given name. -/
def applyRegistration (env : Env) (a : FoundryAgent) (name : String) :
    ToolRegistration → FoundryAgent
  | ToolRegistration.azureFunction cfg d => register_azure_function_tool env a name cfg d
  | ToolRegistration.logicApp cfg d => register_logic_app_tool env a name cfg d
  | ToolRegistration.custom f d p => register_custom_tool a name f d p

/-- The callable a registration action stores in `_tools`. -/
def registrationWrapper (env : Env) : ToolRegistration → ToolFn
  | ToolRegistration.azureFunction cfg _ => azure_function_tool_function env cfg
  | ToolRegistration.logicApp cfg _ => logic_app_tool_function env cfg
  | ToolRegistration.custom f _ _ => f

/-- Register names `"a"`, `"b"`, then `"a"` again on a fresh agent, each step
with an arbitrary registration kind. -/
def registerABA (env : Env) (cfg : AgentConfig)
    (r₁ r₂ r₃ : ToolRegistration) : FoundryAgent :=
  applyRegistration env
    (applyRegistration env
      (applyRegistration env (FoundryAgent.init cfg) "a" r₁) "b" r₂) "a" r₃

/-! ## Concrete environments and services used by witnesses -/

/-- A sample agent configuration. -/
def demoConfig : AgentConfig :=
  { project_endpoint := "https://my-project.api.azureml.ms"
    use_managed_identity := true
    model_name := "gpt-4"
    instructions := "You are a helpful AI assistant with access to Azure tools." }

/-- A service where every operation succeeds: new threads get id `"t1"`,
created agents get id `"agent-1"`, and listing returns one assistant message
whose first content element is textual. -/
def svcOk : Service :=
  { create_thread := Except.ok "t1"
    create_message := fun _ _ _ => Except.ok ()
    create_and_process_run := fun _ _ => Except.ok "completed"
    list_messages := fun _ =>
      Except.ok [{ role := "assistant", content := [ContentItem.text "hello"] }]
    create_agent_resp := fun _ => Except.ok "agent-1"
    delete_agent := fun _ => Except.ok () }

/-- A service where every operation raises. -/
def svcDown : Service :=
  { create_thread := Except.error (PyErr.exc "service unavailable")
    create_message := fun _ _ _ => Except.error (PyErr.exc "service unavailable")
    create_and_process_run := fun _ _ => Except.error (PyErr.exc "service unavailable")
    list_messages := fun _ => Except.error (PyErr.exc "service unavailable")
    create_agent_resp := fun _ => Except.error (PyErr.exc "service unavailable")
    delete_agent := fun _ => Except.error (PyErr.exc "service unavailable") }

/-- `svcOk`, except triggering a run raises. -/
def svcRunFails : Service :=
  { svcOk with create_and_process_run := fun _ _ => Except.error (PyErr.exc "run failed") }

/-- `svcOk`, except listing messages raises. -/
def svcListFails : Service :=
  { svcOk with list_messages := fun _ => Except.error (PyErr.exc "listing failed") }

/-- A custom tool callable that always raises. -/
def customRaisingTool : ToolFn :=
  fun _ => Except.error "custom tool exploded"

/-- An environment whose clients always raise. -/
def envRaising : Env :=
  { invoke_function := fun _ _ => Except.error "connection refused"
    trigger_workflow := fun _ _ => Except.error "workflow trigger timed out" }

/-- An environment whose clients always return a fixed structured result. -/
def envReturning : Env :=
  { invoke_function := fun _ _ => Except.ok (PyVal.dict [("result", PyVal.str "ok")])
    trigger_workflow := fun _ _ => Except.ok (PyVal.str "triggered") }

/-! ## Theorems -/

/-- C1: For every registered function tool and workflow tool, invoking the
wrapper with any keyword payload when the underlying client raises any
exception returns a mapping with exactly the two keys `error` (the
stringified exception message) and `status` (mapped to `"failed"`), and the
wrapper itself never raises. -/
theorem c1_tool_wrapper_error_shape :
    (∀ (env : Env) (cfg : FunctionConfig) (kwargs : PyVal) (e : String),
        env.invoke_function cfg kwargs = Except.error e →
        azure_function_tool_function env cfg kwargs
          = Except.ok (PyVal.dict [("error", PyVal.str e), ("status", PyVal.str "failed")]))
    ∧ (∀ (env : Env) (cfg : LogicAppConfig) (kwargs : PyVal) (e : String),
        env.trigger_workflow cfg kwargs = Except.error e →
        logic_app_tool_function env cfg kwargs
          = Except.ok (PyVal.dict [("error", PyVal.str e), ("status", PyVal.str "failed")]))
    ∧ (∀ (env : Env) (cfg : FunctionConfig) (kwargs : PyVal),
        ∃ v, azure_function_tool_function env cfg kwargs = Except.ok v)
    ∧ (∀ (env : Env) (cfg : LogicAppConfig) (kwargs : PyVal),
        ∃ v, logic_app_tool_function env cfg kwargs = Except.ok v) := by
  refine ⟨?_, ?_, ?_, ?_⟩
  · intro env cfg kwargs e h
    simp [azure_function_tool_function, h]
  · intro env cfg kwargs e h
    simp [logic_app_tool_function, h]
  · intro env cfg kwargs
    unfold azure_function_tool_function
    cases h : env.invoke_function cfg kwargs with
    | ok v => exact ⟨v, by simp [h]⟩
    | error e =>
        exact ⟨PyVal.dict [("error", PyVal.str e), ("status", PyVal.str "failed")],
          by simp [h]⟩
  · intro env cfg kwargs
    unfold logic_app_tool_function
    cases h : env.trigger_workflow cfg kwargs with
    | ok v => exact ⟨v, by simp [h]⟩
    | error e =>
        exact ⟨PyVal.dict [("error", PyVal.str e), ("status", PyVal.str "failed")],
          by simp [h]⟩

/-- C1 witness: the wrapper of a function tool whose client raises
`"connection refused"` returns the two-key failure dict on a concrete
payload, and likewise for a workflow tool whose client raises. -/
theorem c1_tool_wrapper_error_shape_witness :
    azure_function_tool_function envRaising
        { function_url := "https://x/api/f", function_key := "k" } (PyVal.dict [])
      = Except.ok (PyVal.dict
          [("error", PyVal.str "connection refused"), ("status", PyVal.str "failed")])
    ∧ logic_app_tool_function envRaising
        { workflow_url := "https://x/wf" } (PyVal.dict [])
      = Except.ok (PyVal.dict
          [("error", PyVal.str "workflow trigger timed out"), ("status", PyVal.str "failed")]) :=
  ⟨c1_tool_wrapper_error_shape.1 envRaising
      { function_url := "https://x/api/f", function_key := "k" } (PyVal.dict [])
      "connection refused" rfl,
   c1_tool_wrapper_error_shape.2.1 envRaising
      { workflow_url := "https://x/wf" } (PyVal.dict [])
      "workflow trigger timed out" rfl⟩

/-- C4: For every registered function tool and workflow tool, when the
underlying client call returns a value `V`, the wrapper returns exactly `V`,
unchanged. -/
theorem c4_tool_wrapper_passthrough :
    (∀ (env : Env) (cfg : FunctionConfig) (kwargs v : PyVal),
        env.invoke_function cfg kwargs = Except.ok v →
        azure_function_tool_function env cfg kwargs = Except.ok v)
    ∧ (∀ (env : Env) (cfg : LogicAppConfig) (kwargs v : PyVal),
        env.trigger_workflow cfg kwargs = Except.ok v →
        logic_app_tool_function env cfg kwargs = Except.ok v) := by
  constructor
  · intro env cfg kwargs v h
    simp [azure_function_tool_function, h]
  · intro env cfg kwargs v h
    simp [logic_app_tool_function, h]

/-- C4 witness: wrappers over clients returning fixed values pass those
values through unchanged on a concrete payload. -/
theorem c4_tool_wrapper_passthrough_witness :
    azure_function_tool_function envReturning
        { function_url := "https://x/api/f", function_key := "k" } (PyVal.dict [])
      = Except.ok (PyVal.dict [("result", PyVal.str "ok")])
    ∧ logic_app_tool_function envReturning
        { workflow_url := "https://x/wf" } (PyVal.dict [])
      = Except.ok (PyVal.str "triggered") :=
  ⟨c4_tool_wrapper_passthrough.1 envReturning
      { function_url := "https://x/api/f", function_key := "k" }
      (PyVal.dict []) (PyVal.dict [("result", PyVal.str "ok")]) rfl,
   c4_tool_wrapper_passthrough.2 envReturning
      { workflow_url := "https://x/wf" }
      (PyVal.dict []) (PyVal.str "triggered") rfl⟩

/-- C6: When a function tool is registered with no explicit description, the
appended descriptor's description is exactly
`"Azure Function tool: <name> - Invokes Azure Function at <url>"` — for name
`"process"` and URL `"https://x/api/process"` the exact literal shown — and
for a workflow tool it is exactly
`"Logic App workflow tool: <name> - Triggers workflow at <url>"`. -/
theorem c6_default_descriptions :
    (∀ (env : Env) (a : FoundryAgent) (name : String) (cfg : FunctionConfig),
        (register_azure_function_tool env a name cfg Option.none).function_tools
          = a.function_tools ++
              [{ name := name
                 description := "Azure Function tool: " ++ name
                   ++ " - Invokes Azure Function at " ++ cfg.function_url
                 parameters := azureFunctionParameters }])
    ∧ (∀ (env : Env) (a : FoundryAgent) (name : String) (cfg : LogicAppConfig),
        (register_logic_app_tool env a name cfg Option.none).function_tools
          = a.function_tools ++
              [{ name := name
                 description := "Logic App workflow tool: " ++ name
                   ++ " - Triggers workflow at " ++ cfg.workflow_url
                 parameters := logicAppParameters }])
    ∧ (∀ (env : Env) (key : String),
        ((register_azure_function_tool env
            (FoundryAgent.init
              { project_endpoint := "https://p", use_managed_identity := true
                model_name := "gpt-4", instructions := "i" })
            "process" { function_url := "https://x/api/process", function_key := key }
            Option.none).function_tools.map FunctionTool.description)
          = ["Azure Function tool: process - Invokes Azure Function at https://x/api/process"]) := by
  refine ⟨?_, ?_, ?_⟩
  · intro env a name cfg
    simp [register_azure_function_tool, pyOrStr]
  · intro env a name cfg
    simp [register_logic_app_tool, pyOrStr]
  · intro env key
    simp [register_azure_function_tool, pyOrStr, FoundryAgent.init]

/-- Helper: assigning a key in a dict and looking the same key up yields the
assigned value. -/
theorem dictLookup_dictSet {α : Type} (d : List (String × α)) (k : String) (v : α) :
    dictLookup (dictSet d k v) k = Option.some v := by
  induction d with
  | nil => simp [dictSet, dictLookup]
  | cons p d ih =>
      by_cases hp : (p.1 == k) = true
      · simp [dictSet, dictLookup, hp]
      · simp [dictSet, dictLookup, hp] at ih ⊢
        exact ih

/-- C5 counterexample: constructing an `AgentConfig` with an explicitly empty
endpoint URL is accepted — the resulting configuration has an empty endpoint,
so construction with an empty endpoint URL is not rejected. -/
theorem c5_counterexample_empty_endpoint_accepted :
    AgentConfig.validate (Option.some "") Option.none Option.none Option.none
      = Except.ok
          { project_endpoint := ""
            use_managed_identity := true
            model_name := "gpt-4"
            instructions := "You are a helpful AI assistant with access to Azure tools." } := rfl

/-- C5 (amended): the endpoint field is required — omitting it is a
validation error — but its contents are not validated: any provided string,
the empty string included, is accepted unchanged. -/
theorem c5_endpoint_required_not_validated :
    (∀ (u : Option Bool) (m i : Option String),
        ∃ msg, AgentConfig.validate Option.none u m i = Except.error msg)
    ∧ (∀ (ep : String) (u : Option Bool) (m i : Option String),
        AgentConfig.validate (Option.some ep) u m i
          = Except.ok
              { project_endpoint := ep
                use_managed_identity := u.getD true
                model_name := m.getD "gpt-4"
                instructions :=
                  i.getD "You are a helpful AI assistant with access to Azure tools." }) := by
  constructor
  · intro u m i
    exact ⟨_, rfl⟩
  · intro ep u m i
    rfl

/-- C3: registering `"a"`, `"b"`, then `"a"` again (any mix of the three
registration kinds) leaves `list_tools` at exactly `["a", "b"]` — first
registration order, no duplicate — while the descriptor list holds 3
entries, so the name count differs from the descriptor count; the second
registration of `"a"` overwrote the name-to-wrapper mapping (the stored
callable is the last one registered) and appended a fresh descriptor. -/
theorem c3_registry_reregistration (env : Env) (cfg : AgentConfig)
    (r₁ r₂ r₃ : ToolRegistration) :
    list_tools (registerABA env cfg r₁ r₂ r₃) = ["a", "b"]
      ∧ (registerABA env cfg r₁ r₂ r₃).function_tools.length = 3
      ∧ (list_tools (registerABA env cfg r₁ r₂ r₃)).length
          ≠ (registerABA env cfg r₁ r₂ r₃).function_tools.length
      ∧ dictLookup (registerABA env cfg r₁ r₂ r₃).tools "a"
          = Option.some (registrationWrapper env r₃)
      ∧ dictLookup (registerABA env cfg r₁ r₂ r₃).tools "b"
          = Option.some (registrationWrapper env r₂) := by
  have h23 : (2 : Nat) ≠ 3 := by decide
  cases r₁ <;> cases r₂ <;> cases r₃ <;>
    exact ⟨rfl, rfl, h23, rfl, rfl⟩

/-- C2: after the run completes, the listed messages are scanned in the order
the service returned them and the text of the first role-"assistant" message
exposing textual content is returned, the literal `"No response generated"`
when no message matches (stated for lists where no assistant message has an
empty content list — an empty content list raises instead, see C10); and
`run_agent` applies this scan to exactly the message list the service
returned. -/
theorem c2_first_assistant_message :
    (∀ (ms : List Message),
        (∀ m ∈ ms, m.role = "assistant" → m.content ≠ []) →
        run_agent_scan ms
          = Except.ok ((firstAssistantText_spec ms).getD "No response generated"))
    ∧ (∀ (svc : Service) (agent_id user_message tid st : String) (ms : List Message),
        tid ≠ "" →
        svc.create_message tid "user" user_message = Except.ok () →
        svc.create_and_process_run tid agent_id = Except.ok st →
        svc.list_messages tid = Except.ok ms →
        (run_agent svc agent_id user_message (Option.some tid)).2 = run_agent_scan ms) := by
  constructor
  · intro ms
    induction ms with
    | nil => intro _; rfl
    | cons m rest ih =>
        intro h
        have hrest : ∀ m' ∈ rest, m'.role = "assistant" → m'.content ≠ [] :=
          fun m' hm' => h m' (List.mem_cons_of_mem _ hm')
        by_cases hrole : m.role = "assistant"
        · cases hc : m.content with
          | nil => exact absurd hc (h m (List.mem_cons_self _ _) hrole)
          | cons c cs =>
              cases c with
              | text v =>
                  simp [run_agent_scan, hrole, hc, firstAssistantText_spec,
                    List.find?_cons, contentText]
              | other =>
                  have hr := ih hrest
                  simp [run_agent_scan, hrole, hc, firstAssistantText_spec,
                    List.find?_cons, contentText] at hr ⊢
                  exact hr
        · have hr := ih hrest
          simp [run_agent_scan, hrole, firstAssistantText_spec, List.find?_cons] at hr ⊢
          exact hr
  · intro svc agent_id user_message tid st ms hne h1 h2 h3
    simp [run_agent, hne, h1, h2, h3]

/-- C2 witness: on a concrete history the assistant reply `"hello"` is
extracted; a list with only `"user"` entries yields the sentinel; and
`run_agent` over the always-succeeding service returns the scan of the
listed messages. -/
theorem c2_first_assistant_message_witness :
    run_agent_scan
        [{ role := "user", content := [ContentItem.text "hi"] },
         { role := "assistant", content := [ContentItem.text "hello"] }]
      = Except.ok "hello"
    ∧ run_agent_scan [{ role := "user", content := [ContentItem.text "hi"] }]
      = Except.ok "No response generated"
    ∧ (run_agent svcOk "agent-1" "hi" (Option.some "t9")).2
      = run_agent_scan [{ role := "assistant", content := [ContentItem.text "hello"] }] := by
  refine ⟨?_, ?_, ?_⟩
  · have h := c2_first_assistant_message.1
        [{ role := "user", content := [ContentItem.text "hi"] },
         { role := "assistant", content := [ContentItem.text "hello"] }]
        (by decide)
    exact h.trans rfl
  · have h := c2_first_assistant_message.1
        [{ role := "user", content := [ContentItem.text "hi"] }] (by decide)
    exact h.trans rfl
  · exact c2_first_assistant_message.2 svcOk "agent-1" "hi" "t9" "completed"
      [{ role := "assistant", content := [ContentItem.text "hello"] }]
      (by decide) rfl rfl rfl

/-- C10: the scan inspects only element 0 of an assistant message's content
list: an empty content list raises an uncaught `IndexError` (not the
sentinel), and an assistant message whose element 0 has no `text` attribute
is skipped entirely even when a later element carries text — with such a
message alone, the sentinel is returned instead of the later text. -/
theorem c10_scan_reads_only_first_element :
    (∀ (rest : List Message),
        run_agent_scan ({ role := "assistant", content := [] } :: rest)
          = Except.error PyErr.indexError)
    ∧ (∀ (v : String) (rest : List Message),
        run_agent_scan
            ({ role := "assistant",
               content := [ContentItem.other, ContentItem.text v] } :: rest)
          = run_agent_scan rest)
    ∧ run_agent_scan
        [{ role := "assistant",
           content := [ContentItem.other, ContentItem.text "later text"] }]
        = Except.ok "No response generated" := by
  refine ⟨fun rest => rfl, fun v rest => rfl, rfl⟩

/-- C7: with no `thread_id`, `run_agent` first creates a thread and then uses
the service-assigned id for posting the `"user"` message, triggering the run
and listing messages; with a caller-supplied (non-falsy) `thread_id`, no
thread is created and the supplied id is used for all three steps. -/
theorem c7_thread_creation_and_reuse :
    (∀ (svc : Service) (agent_id user_message t st : String) (ms : List Message),
        svc.create_thread = Except.ok t →
        svc.create_message t "user" user_message = Except.ok () →
        svc.create_and_process_run t agent_id = Except.ok st →
        svc.list_messages t = Except.ok ms →
        (run_agent svc agent_id user_message Option.none).1
          = [RemoteCall.createThread,
             RemoteCall.createMessage t "user" user_message,
             RemoteCall.createAndProcessRun t agent_id,
             RemoteCall.listMessages t])
    ∧ (∀ (svc : Service) (agent_id user_message t st : String) (ms : List Message),
        t ≠ "" →
        svc.create_message t "user" user_message = Except.ok () →
        svc.create_and_process_run t agent_id = Except.ok st →
        svc.list_messages t = Except.ok ms →
        (run_agent svc agent_id user_message (Option.some t)).1
          = [RemoteCall.createMessage t "user" user_message,
             RemoteCall.createAndProcessRun t agent_id,
             RemoteCall.listMessages t]) := by
  constructor
  · intro svc agent_id user_message t st ms h0 h1 h2 h3
    simp [run_agent, h0, h1, h2, h3]
  · intro svc agent_id user_message t st ms hne h1 h2 h3
    simp [run_agent, hne, h1, h2, h3]

/-- C7 witness: against the always-succeeding service (new threads get id
`"t1"`), omitting `thread_id` yields the four-call trace on `"t1"`, and
supplying `"t9"` yields the three-call trace on `"t9"` with no thread
creation. -/
theorem c7_thread_creation_and_reuse_witness :
    (run_agent svcOk "agent-1" "hello" Option.none).1
      = [RemoteCall.createThread,
         RemoteCall.createMessage "t1" "user" "hello",
         RemoteCall.createAndProcessRun "t1" "agent-1",
         RemoteCall.listMessages "t1"]
    ∧ (run_agent svcOk "agent-1" "hello" (Option.some "t9")).1
      = [RemoteCall.createMessage "t9" "user" "hello",
         RemoteCall.createAndProcessRun "t9" "agent-1",
         RemoteCall.listMessages "t9"] :=
  ⟨c7_thread_creation_and_reuse.1 svcOk "agent-1" "hello" "t1" "completed"
      [{ role := "assistant", content := [ContentItem.text "hello"] }] rfl rfl rfl rfl,
   c7_thread_creation_and_reuse.2 svcOk "agent-1" "hello" "t9" "completed"
      [{ role := "assistant", content := [ContentItem.text "hello"] }]
      (by decide) rfl rfl rfl⟩

/-- C8: `create_agent` issues one remote create-agent call whose arguments
are the configured model, the name (the literal `"Azure Tools Agent"` when
omitted), the configured instructions, the full registered descriptor list
and an empty tool-resources mapping, and returns the remote-assigned agent
identifier. -/
theorem c8_create_agent_arguments :
    ∀ (svc : Service) (a : FoundryAgent) (name : Option String),
      (create_agent svc a name).1
        = [{ model := a.config.model_name
             name := pyOrStr name "Azure Tools Agent"
             instructions := a.config.instructions
             tools := a.function_tools
             tool_resources := [] }]
      ∧ pyOrStr Option.none "Azure Tools Agent" = "Azure Tools Agent"
      ∧ (∀ agentId : String,
          svc.create_agent_resp
              { model := a.config.model_name
                name := pyOrStr name "Azure Tools Agent"
                instructions := a.config.instructions
                tools := a.function_tools
                tool_resources := [] } = Except.ok agentId →
          (create_agent svc a name).2 = Except.ok agentId) := by
  intro svc a name
  refine ⟨rfl, rfl, ?_⟩
  intro agentId h
  exact h

/-- C8 witness: on a fresh agent over the demo configuration and the
always-succeeding service, the single call carries model `"gpt-4"`, name
`"Azure Tools Agent"`, the configured instructions, no descriptors and empty
tool-resources, and the remote-assigned id `"agent-1"` is returned. -/
theorem c8_create_agent_arguments_witness :
    (create_agent svcOk (FoundryAgent.init demoConfig) Option.none).1
      = [{ model := "gpt-4"
           name := "Azure Tools Agent"
           instructions := "You are a helpful AI assistant with access to Azure tools."
           tools := []
           tool_resources := [] }]
    ∧ (create_agent svcOk (FoundryAgent.init demoConfig) Option.none).2
      = Except.ok "agent-1" := by
  have h := c8_create_agent_arguments svcOk (FoundryAgent.init demoConfig) Option.none
  exact ⟨h.1, h.2.2 "agent-1" rfl⟩

/-- C9: remote failures are not caught by the controller: an exception from
the service during `create_agent`, any stage of `run_agent`, or
`delete_agent` propagates unchanged to the caller (never converted to the
`{error, status}` shape), and a tool registered via `register_custom_tool`
is stored verbatim, so its exceptions propagate too. -/
theorem c9_controller_failures_propagate :
    (∀ (svc : Service) (a : FoundryAgent) (name : Option String) (e : PyErr),
        (∀ c, svc.create_agent_resp c = Except.error e) →
        (create_agent svc a name).2 = Except.error e)
    ∧ (∀ (svc : Service) (agent_id user_message : String) (e : PyErr),
        svc.create_thread = Except.error e →
        (run_agent svc agent_id user_message Option.none).2 = Except.error e)
    ∧ (∀ (svc : Service) (agent_id user_message t : String) (e : PyErr),
        t ≠ "" →
        svc.create_message t "user" user_message = Except.error e →
        (run_agent svc agent_id user_message (Option.some t)).2 = Except.error e)
    ∧ (∀ (svc : Service) (agent_id user_message t : String) (e : PyErr),
        t ≠ "" →
        svc.create_message t "user" user_message = Except.ok () →
        svc.create_and_process_run t agent_id = Except.error e →
        (run_agent svc agent_id user_message (Option.some t)).2 = Except.error e)
    ∧ (∀ (svc : Service) (agent_id user_message t st : String) (e : PyErr),
        t ≠ "" →
        svc.create_message t "user" user_message = Except.ok () →
        svc.create_and_process_run t agent_id = Except.ok st →
        svc.list_messages t = Except.error e →
        (run_agent svc agent_id user_message (Option.some t)).2 = Except.error e)
    ∧ (∀ (svc : Service) (agent_id : String) (e : PyErr),
        svc.delete_agent agent_id = Except.error e →
        (delete_agent svc agent_id).2 = Except.error e)
    ∧ (∀ (a : FoundryAgent) (name : String) (f : ToolFn)
          (description : String) (parameters : PyVal),
        dictLookup (register_custom_tool a name f description parameters).tools name
          = Option.some f) := by
  refine ⟨?_, ?_, ?_, ?_, ?_, ?_, ?_⟩
  · intro svc a name e h
    simp [create_agent, h]
  · intro svc agent_id user_message e h
    simp [run_agent, h]
  · intro svc agent_id user_message t e hne h
    simp [run_agent, hne, h]
  · intro svc agent_id user_message t e hne h1 h2
    simp [run_agent, hne, h1, h2]
  · intro svc agent_id user_message t st e hne h1 h2 h3
    simp [run_agent, hne, h1, h2, h3]
  · intro svc agent_id e h
    simp [delete_agent, h]
  · intro a name f description parameters
    simp [register_custom_tool, dictLookup_dictSet]

/-- C9 witness: against services whose remote calls raise, `create_agent`,
every stage of `run_agent` and `delete_agent` surface the service's own
exception; and a raising custom tool is stored verbatim in the registry. -/
theorem c9_controller_failures_propagate_witness :
    (create_agent svcDown (FoundryAgent.init demoConfig) Option.none).2
      = Except.error (PyErr.exc "service unavailable")
    ∧ (run_agent svcDown "agent-1" "hi" Option.none).2
      = Except.error (PyErr.exc "service unavailable")
    ∧ (run_agent svcDown "agent-1" "hi" (Option.some "t9")).2
      = Except.error (PyErr.exc "service unavailable")
    ∧ (run_agent svcRunFails "agent-1" "hi" (Option.some "t9")).2
      = Except.error (PyErr.exc "run failed")
    ∧ (run_agent svcListFails "agent-1" "hi" (Option.some "t9")).2
      = Except.error (PyErr.exc "listing failed")
    ∧ (delete_agent svcDown "agent-1").2 = Except.error (PyErr.exc "service unavailable")
    ∧ dictLookup
        (register_custom_tool (FoundryAgent.init demoConfig) "boom"
          customRaisingTool "a raising tool" (PyVal.dict [])).tools "boom"
      = Option.some customRaisingTool :=
  ⟨c9_controller_failures_propagate.1 svcDown (FoundryAgent.init demoConfig)
      Option.none (PyErr.exc "service unavailable") (fun _ => rfl),
   c9_controller_failures_propagate.2.1 svcDown "agent-1" "hi"
      (PyErr.exc "service unavailable") rfl,
   c9_controller_failures_propagate.2.2.1 svcDown "agent-1" "hi" "t9"
      (PyErr.exc "service unavailable") (by decide) rfl,
   c9_controller_failures_propagate.2.2.2.1 svcRunFails "agent-1" "hi" "t9"
      (PyErr.exc "run failed") (by decide) rfl rfl,
   c9_controller_failures_propagate.2.2.2.2.1 svcListFails "agent-1" "hi" "t9"
      "completed" (PyErr.exc "listing failed") (by decide) rfl rfl rfl,
   c9_controller_failures_propagate.2.2.2.2.2.1 svcDown "agent-1"
      (PyErr.exc "service unavailable") rfl,
   c9_controller_failures_propagate.2.2.2.2.2.2 (FoundryAgent.init demoConfig)
      "boom" customRaisingTool "a raising tool" (PyVal.dict [])⟩

end AgentCore
